import Mathlib

/-!
Verification of the Greybus operation core (src/operation.c).

The definitions below are a shallow embedding of the operation engine:
message headers are byte lists, transport buffers are explicit records,
the per-connection pending registry is the binary search tree that
`gb_operation_insert` / `gb_operation_find` / `gb_operation_remove`
maintain (red-black rebalancing is colour bookkeeping performed by the
kernel's rb-tree library; it changes neither the key set nor the
search-order invariant, so it is omitted here), and the interrupt-time
receive path `gb_connection_operation_recv` is a pure function from the
incoming byte block to the registry update and the side effects the
source performs.  External collaborators (the host transport's buffer
allocator and its submit / cancel entry points) are represented by
explicit oracle parameters, since their code is not part of this
repository's core.
-/

/-- The top bit of the type byte in an operation message header marks a
response (bit set); a clear bit marks a request. -/
def GB_OPERATION_TYPE_RESPONSE : Nat := 0x80

/-- Maximum total message size accepted by the receive path. -/
def GB_OPERATION_MESSAGE_SIZE_MAX : Nat := 4096

/-- Byte size of `struct gb_operation_msg_hdr`: le16 size, le16 id, u8 type
and three pad bytes (the struct is 64-bit aligned). -/
def gb_operation_msg_hdr_size : Nat := 8

/-- Modelled from the spec: `GB_OP_SUCCESS`, the successful operation status
code, comes from greybus.h which is not under src/.  The spec's buffer
status taxonomy makes success the zero code. -/
def GB_OP_SUCCESS : Nat := 0

/-- Modelled from the spec: `GB_OP_PROTOCOL_BAD`, the "unsupported protocol"
result code from greybus.h (not under src/).  Only its distinctness from
`GB_OP_SUCCESS` matters for the properties proved here. -/
def GB_OP_PROTOCOL_BAD : Nat := 4

/-- A transport buffer (`struct gbuf`): the allocated byte capacity
(`transfer_buffer_length`), the bytes of `transfer_buffer`, the used
length `actual_length` and the completion `status`. -/
structure Gbuf where
  capacity : Nat
  data : List Nat
  actual_length : Nat
  status : Nat
  deriving DecidableEq

/-- An operation (`struct gb_operation`): its identifier, the owning
connection's protocol number, the request buffer, the optional response
buffer (absent for inbound requests), the result code and whether a
completion callback was registered. -/
structure Operation where
  id : Nat
  protocol : Nat
  request : Gbuf
  response : Option Gbuf
  result : Nat
  hasCallback : Bool
  deriving DecidableEq

/-- Read a little-endian 16-bit field starting at byte `i` of a buffer
(`le16_to_cpu`); bytes beyond the end read as zero. -/
def le16_get (data : List Nat) (i : Nat) : Nat :=
  data.getD i 0 + 256 * data.getD (i + 1) 0

/-- Write a little-endian 16-bit value at byte `i` of a buffer
(`cpu_to_le16` followed by the store into the header field). -/
def setLe16 (data : List Nat) (i : Nat) (v : Nat) : List Nat :=
  (data.set i (v % 65536 % 256)).set (i + 1) (v % 65536 / 256)

/-- `memcpy(dst, src, n)`: the first `n` bytes of the destination become the
first `n` bytes of the source (bytes read past the end of `src` are
indeterminate, modelled as zero), the rest of the destination is kept.  If
`n` exceeds the destination's extent the write runs past its end, which
this model represents by the resulting list growing beyond its former
length. -/
def copyBytes (dst src : List Nat) (n : Nat) : List Nat :=
  (List.range n).map (fun i => src.getD i 0) ++ dst.drop n

/-- `gb_operation_gbuf_create`: allocate a buffer for an operation request
or response message and fill in the common header.  The source adds the
header size to the requested payload size before allocating, then stores
the le16 total size (truncated by `cpu_to_le16`), a zero id and the type
byte.  The `dataOut` flag only selects the allocation strategy
(GFP_KERNEL vs GFP_ATOMIC) in the source; allocation failure is decided
by the caller's oracle, so this function builds the buffer a successful
allocation yields.  Payload and pad bytes start as zero. -/
def gb_operation_gbuf_create (otype : Nat) (size : Nat) (dataOut : Bool) : Gbuf :=
  { capacity := size + gb_operation_msg_hdr_size
    data := [(size + gb_operation_msg_hdr_size) % 65536 % 256,
             (size + gb_operation_msg_hdr_size) % 65536 / 256,
             0, 0, otype % 256, 0, 0, 0] ++ List.replicate size 0
    actual_length := 0
    status := 0 }

/-- Which of an operation's two buffers an event concerns. -/
inductive BufKind where
  | request
  | response
  deriving DecidableEq

/-- Allocation oracle: whether the operation-object allocation (`kzalloc`),
the request-buffer allocation and the response-buffer allocation succeed.
The transport's allocator is external to this repository's core. -/
structure AllocOracle where
  opOk : Bool
  reqOk : Bool
  respOk : Bool
  deriving DecidableEq

/-- Outcome of `gb_operation_create`: the operation produced (if any), the
buffer allocations attempted, the ones that succeeded, the ones freed
again on the failure paths, and whether the operation was added to the
connection's operation list. -/
structure CreateResult where
  op? : Option Operation
  attempted : List BufKind
  allocated : List BufKind
  freed : List BufKind
  registered : Bool
  deriving DecidableEq

/-- `gb_operation_create(connection, type, request_size, response_size)`:
allocate the operation object, always allocate the request buffer, and
allocate a response buffer (with the response bit OR-ed into its type)
only when `response_size` is non-zero.  Each failure path frees what was
already allocated and returns null; only full success appends the
operation to the connection's operation list. -/
def gb_operation_create (protocol otype request_size response_size : Nat)
    (oracle : AllocOracle) : CreateResult :=
  if oracle.opOk = false then
    { op? := none, attempted := [], allocated := [], freed := [], registered := false }
  else if oracle.reqOk = false then
    { op? := none, attempted := [.request], allocated := [], freed := [],
      registered := false }
  else if response_size ≠ 0 ∧ oracle.respOk = false then
    { op? := none, attempted := [.request, .response], allocated := [.request],
      freed := [.request], registered := false }
  else
    { op? := some
        { id := 0
          protocol := protocol
          request := { gb_operation_gbuf_create otype request_size
                         (decide (response_size ≠ 0)) with
                       actual_length := request_size }
          response := if response_size ≠ 0 then
              some (gb_operation_gbuf_create (otype ||| GB_OPERATION_TYPE_RESPONSE)
                      response_size false)
            else none
          result := 0
          hasCallback := false }
      attempted := if response_size ≠ 0 then [.request, .response] else [.request]
      allocated := if response_size ≠ 0 then [.request, .response] else [.request]
      freed := []
      registered := true }

/-- The per-connection pending registry: the binary search tree over
operations keyed by identifier that the source maintains through the
kernel rb-tree (`connection->pending`). -/
inductive GbTree where
  | nil
  | node (l : GbTree) (op : Operation) (r : GbTree)
  deriving DecidableEq

/-- In-order list of identifiers present in the pending registry. -/
def keys : GbTree → List Nat
  | .nil => []
  | .node l o r => keys l ++ o.id :: keys r

/-- The registry's search-order invariant: every identifier in a left
subtree is smaller than the node's, every identifier in a right subtree
larger (this is what `gb_operation_insert`'s descent establishes and the
rb-tree library preserves). -/
def isBST : GbTree → Bool
  | .nil => true
  | .node l o r =>
      (keys l).all (fun k => decide (k < o.id)) &&
      (keys r).all (fun k => decide (o.id < k)) &&
      isBST l && isBST r

/-- `gb_operation_find(connection, id)`: descend the pending tree comparing
identifiers exactly as the source's loop does, returning the operation
whose identifier equals `id`, or not-found. -/
def gb_operation_find : GbTree → Nat → Option Operation
  | .nil, _ => none
  | .node l o r, id =>
      if o.id > id then gb_operation_find l id
      else if o.id < id then gb_operation_find r id
      else some o

/-- The descent of `gb_operation_insert`: walk left on larger resident
identifiers, right on smaller, and link the new node at the reached leaf.
When a resident identifier equals the new one the source's loop never
advances `link` and spins forever; that undefined outcome is `none`. -/
def insertTree : GbTree → Operation → Option GbTree
  | .nil, op => some (.node .nil op .nil)
  | .node l o r, op =>
      if o.id > op.id then (insertTree l op).map (fun l2 => .node l2 o r)
      else if o.id < op.id then (insertTree r op).map (fun r2 => .node l o r2)
      else none

/-- Remove and return the minimum-key node of a tree (the replacement step
of binary-search-tree deletion inside `rb_erase`). -/
def delMin : GbTree → Option (Operation × GbTree)
  | .nil => none
  | .node l o r =>
      match delMin l with
      | none => some (o, r)
      | some (m, l2) => some (m, .node l2 o r)

/-- Erase the node carrying identifier `id` (the key-set effect of
`rb_erase`; the rb-tree library's recolouring does not change which keys
remain). -/
def eraseTree : GbTree → Nat → GbTree
  | .nil, _ => .nil
  | .node l o r, id =>
      if o.id > id then .node (eraseTree l id) o r
      else if o.id < id then .node l o (eraseTree r id)
      else
        match delMin r with
        | none => l
        | some (m, r2) => .node l m r2

/-- `gb_operation_remove(operation)`: erase the operation's node from its
connection's pending tree. -/
def gb_operation_remove (t : GbTree) (op : Operation) : GbTree :=
  eraseTree t op.id

/-- Modelled from the spec: `gb_connection_operation_id` lives in connection
code that is not under src/.  Per the spec, identifiers come from a
per-connection monotonically advancing counter, wrap at 16 bits, and zero
is never assigned as a live identifier. -/
def gb_connection_operation_id (counter : Nat) : Nat :=
  if counter % 65536 = 0 then 1 else counter % 65536

/-- `gb_operation_insert(operation)`: assign the operation's identifier from
the connection's counter, store it little-endian into the request
message header's id field (bytes 2 and 3), and link the operation into
the pending tree.  Returns the updated tree together with the updated
operation, or `none` in the undefined duplicate-identifier case. -/
def gb_operation_insert (counter : Nat) (t : GbTree) (op : Operation) :
    Option (GbTree × Operation) :=
  let op2 : Operation :=
    { op with
      id := gb_connection_operation_id counter
      request := { op.request with
                   data := setLe16 op.request.data 2
                             (gb_connection_operation_id counter) } }
  (insertTree t op2).map (fun t2 => (t2, op2))

/-- Read the header's type byte (`header->type`, offset 4). -/
def hdr_type (data : List Nat) : Nat := data.getD 4 0

/-- Outcome of `gb_connection_operation_recv`: the pending registry after the
call, the operation fabricated on the request path (if any), the matched
pending operation after its mutations on the response path (if any), how
many bytes were copied into the selected buffer (`none` when the frame was
dropped before the copy), whether deferred work was queued, the
diagnostics reported through `gb_connection_err`, whether the
`WARN_ON(msg_size != size)` check fired, and whether a fresh operation was
registered on the connection's operation list. -/
structure RecvResult where
  pending : GbTree
  createdOp : Option Operation
  respOp : Option Operation
  copied : Option Nat
  queued : Bool
  errors : List String
  warned : Bool
  registered : Bool
  deriving DecidableEq

/-- `gb_connection_operation_recv(connection, data, size)`: the
interrupt-context receive dispatcher.  `data` is the raw inbound byte
block, so the delivered size is `data.length`.  Frames longer than the
maximum are dropped.  A set response bit correlates the frame to a
pending operation: not-found drops; a found operation is removed from the
pending tree, its response buffer's status is marked successful, and the
frame is dropped when the delivered size exceeds the response buffer's
capacity.  A clear response bit fabricates a new operation via
`gb_operation_create` with the declared header size as the payload size.
Either surviving path copies the declared number of bytes into the
selected buffer, records it as the buffer's used length and queues the
deferred work.  The result is `none` exactly when the source would
dereference a null response buffer (a pending operation without one). -/
def gb_connection_operation_recv (pending : GbTree) (protocol : Nat)
    (data : List Nat) (oracle : AllocOracle) : Option RecvResult :=
  if data.length > GB_OPERATION_MESSAGE_SIZE_MAX then
    some { pending := pending, createdOp := none, respOp := none, copied := none,
           queued := false, errors := ["message too big"], warned := false,
           registered := false }
  else if hdr_type data &&& GB_OPERATION_TYPE_RESPONSE ≠ 0 then
    match gb_operation_find pending (le16_get data 2) with
    | none =>
        some { pending := pending, createdOp := none, respOp := none, copied := none,
               queued := false, errors := ["operation not found"], warned := false,
               registered := false }
    | some op =>
        match op.response with
        | none => none
        | some g =>
            if data.length > g.capacity then
              some { pending := gb_operation_remove pending op, createdOp := none,
                     respOp := some { op with
                                      response := some { g with status := GB_OP_SUCCESS } },
                     copied := none, queued := false,
                     errors := ["recv buffer too small"], warned := false,
                     registered := false }
            else
              some { pending := gb_operation_remove pending op, createdOp := none,
                     respOp := some { op with
                                      response := some
                                        { g with
                                          status := GB_OP_SUCCESS,
                                          data := copyBytes g.data data (le16_get data 0),
                                          actual_length := le16_get data 0 } },
                     copied := some (le16_get data 0), queued := true, errors := [],
                     warned := false, registered := false }
  else
    match (gb_operation_create protocol (hdr_type data) (le16_get data 0) 0 oracle).op? with
    | none =>
        some { pending := pending, createdOp := none, respOp := none, copied := none,
               queued := false, errors := ["can't create operation"],
               warned := decide (le16_get data 0 ≠ data.length), registered := false }
    | some op =>
        some { pending := pending,
               createdOp := some { op with
                                   request := { op.request with
                                                data := copyBytes op.request.data data
                                                          (le16_get data 0),
                                                actual_length := le16_get data 0 } },
               respOp := none, copied := some (le16_get data 0), queued := true,
               errors := [], warned := decide (le16_get data 0 ≠ data.length),
               registered := true }

/-- A registered inbound-request handler.  The only handlers installed in
the source's table are `gb_operation_recv_none`, which does nothing. -/
inductive RecvHandler where
  | recv_none
  deriving DecidableEq

/-- Run a handler on an operation, returning the operation afterwards and
how many completion notifications the handler itself fired
(`gb_operation_recv_none` fires none). -/
def runHandler : RecvHandler → Operation → Operation × Nat
  | .recv_none, op => (op, 0)

/-- The static dispatch table `gb_operation_recv_handlers`, indexed by
protocol number.  The nine slots are, in declaration order of the
GREYBUS_PROTOCOL enum from greybus.h (not under src/, so the indices are
modelled as consecutive from zero per the spec's protocol-identifier
mapping): CONTROL, AP, GPIO, I2C, UART, HID, BATTERY, LED, VENDOR; only
the I2C and BATTERY slots hold a handler. -/
def gb_operation_recv_handlers : List (Option RecvHandler) :=
  [none, none, none, some .recv_none, none, none, some .recv_none, none, none]

/-- One invocation of `gb_operation_complete`: when a callback is
registered it is invoked, otherwise all waiters on the completion signal
are woken.  Exactly one notification is fired either way; the pair counts
(callback invocations, waiter wakeups). -/
def gb_operation_complete (op : Operation) : Nat × Nat :=
  if op.hasCallback then (1, 0) else (0, 1)

/-- Total completion notifications fired by one `gb_operation_complete`. -/
def notifications (e : Nat × Nat) : Nat := e.1 + e.2

/-- `gb_operation_request_handle`: look up the handler for the connection's
protocol; in range and non-null, run it; otherwise report the routing
error, set the result to `GB_OP_PROTOCOL_BAD` and complete the operation.
Returns the operation and the number of completion notifications this
call itself fired. -/
def gb_operation_request_handle (op : Operation) : Operation × Nat :=
  if op.protocol ≤ gb_operation_recv_handlers.length - 1 then
    match gb_operation_recv_handlers.getD op.protocol none with
    | some h => runHandler h op
    | none =>
        ({ op with result := GB_OP_PROTOCOL_BAD },
         notifications (gb_operation_complete { op with result := GB_OP_PROTOCOL_BAD }))
  else
    ({ op with result := GB_OP_PROTOCOL_BAD },
     notifications (gb_operation_complete { op with result := GB_OP_PROTOCOL_BAD }))

/-- Outcome of the deferred work: the operation afterwards, the total
number of completion notifications fired during the work item, and which
buffer was handed back to the transport via `greybus_gbuf_finished`. -/
structure RecvWorkResult where
  op : Operation
  completions : Nat
  finished : BufKind
  deriving DecidableEq

/-- `gb_operation_recv_work`: the deferred work run for every received
frame.  A null response buffer means the operation is an inbound request,
which is first given to `gb_operation_request_handle`; afterwards the
work item unconditionally calls `gb_operation_complete` once more, then
marks the buffer it read into as finished. -/
def gb_operation_recv_work (op : Operation) : RecvWorkResult :=
  let incoming := op.response.isNone
  let p := if incoming then gb_operation_request_handle op else (op, 0)
  { op := p.1
    completions := p.2 + notifications (gb_operation_complete p.1)
    finished := if incoming then .request else .response }

/-- `gb_operation_wait`: wait interruptibly for the operation to complete.
`waitRet` is the result of `wait_for_completion_interruptible` (negative
when the wait was interrupted).  Modelled from the spec:
`greybus_kill_gbuf`, the transport cancel of the in-flight request
buffer, lives in gbuf.c which is not under src/; per the spec's transport
contract `cancel(buffer) -> result` it returns a result code, zero on
success, passed here as `killRet`.  On interruption the source overwrites
its return value with that cancel result. -/
def gb_operation_wait (waitRet killRet : Int) : Int :=
  if waitRet < 0 then killRet else waitRet

/-- `gb_operation_request_send`: store the callback, insert the operation
into the pending registry, submit the request buffer (`submitRet` is the
transport's submission result, zero on success) and, for a null callback,
block in `gb_operation_wait`. -/
def gb_operation_request_send (submitRet : Int) (hasCallback : Bool)
    (waitRet killRet : Int) : Int :=
  if submitRet ≠ 0 then submitRet
  else if hasCallback then submitRet
  else gb_operation_wait waitRet killRet

/-- An identifier absent from the registry is never found: the search
descends one comparison path and reaches a leaf. -/
theorem find_eq_none_of_not_mem (t : GbTree) (id : Nat) (h : id ∉ keys t) :
    gb_operation_find t id = none := by
  induction t with
  | nil => rfl
  | node l o r ihl ihr =>
    simp only [keys, List.mem_append, List.mem_cons, not_or] at h
    obtain ⟨hl, ho, hr⟩ := h
    unfold gb_operation_find
    by_cases h1 : o.id > id
    · rw [if_pos h1]
      exact ihl hl
    · by_cases h2 : o.id < id
      · rw [if_neg h1, if_pos h2]
        exact ihr hr
      · exfalso
        omega

/-- A freshly linked operation is found again: `gb_operation_find` retraces
exactly the comparisons `gb_operation_insert`'s descent made. -/
theorem insertTree_find (t : GbTree) (op : Operation) (t2 : GbTree)
    (h : insertTree t op = some t2) : gb_operation_find t2 op.id = some op := by
  induction t generalizing t2 with
  | nil =>
    simp only [insertTree, Option.some_inj] at h
    subst h
    simp [gb_operation_find]
  | node l o r ihl ihr =>
    unfold insertTree at h
    by_cases h1 : o.id > op.id
    · rw [if_pos h1] at h
      cases hi : insertTree l op with
      | none => rw [hi] at h; simp at h
      | some l2 =>
        rw [hi] at h
        simp only [Option.map_some', Option.some_inj] at h
        subst h
        unfold gb_operation_find
        rw [if_pos h1]
        exact ihl l2 hi
    · by_cases h2 : o.id < op.id
      · rw [if_neg h1, if_pos h2] at h
        cases hi : insertTree r op with
        | none => rw [hi] at h; simp at h
        | some r2 =>
          rw [hi] at h
          simp only [Option.map_some', Option.some_inj] at h
          subst h
          unfold gb_operation_find
          rw [if_neg h1, if_pos h2]
          exact ihr r2 hi
      · rw [if_neg h1, if_neg h2] at h
        simp at h

/-- The node `delMin` extracts carries an identifier of the tree it came
from. -/
theorem delMin_mem (t : GbTree) (m : Operation) (t2 : GbTree)
    (h : delMin t = some (m, t2)) : m.id ∈ keys t := by
  induction t generalizing m t2 with
  | nil => simp [delMin] at h
  | node l o r ihl ihr =>
    unfold delMin at h
    cases hd : delMin l with
    | none =>
      rw [hd] at h
      simp only [Option.some_inj, Prod.mk.injEq] at h
      obtain ⟨h1, _⟩ := h
      subst h1
      simp [keys]
    | some p =>
      obtain ⟨m2, l2⟩ := p
      rw [hd] at h
      simp only [Option.some_inj, Prod.mk.injEq] at h
      obtain ⟨h1, _⟩ := h
      subst h1
      have hmem := ihl m2 l2 hd
      simp only [keys, List.mem_append, List.mem_cons]
      exact Or.inl hmem

/-- After erasing an identifier from a well-ordered registry, searching for
that identifier reports not-found. -/
theorem find_erase (t : GbTree) (id : Nat) (hbst : isBST t = true) :
    gb_operation_find (eraseTree t id) id = none := by
  induction t with
  | nil => rfl
  | node l o r ihl ihr =>
    simp only [isBST, Bool.and_eq_true, List.all_eq_true, decide_eq_true_eq] at hbst
    obtain ⟨⟨⟨hall_l, hall_r⟩, hbl⟩, hbr⟩ := hbst
    unfold eraseTree
    by_cases h1 : o.id > id
    · rw [if_pos h1]
      unfold gb_operation_find
      rw [if_pos h1]
      exact ihl hbl
    · by_cases h2 : o.id < id
      · rw [if_neg h1, if_pos h2]
        unfold gb_operation_find
        rw [if_neg h1, if_pos h2]
        exact ihr hbr
      · rw [if_neg h1, if_neg h2]
        have hid : o.id = id := by omega
        cases hd : delMin r with
        | none =>
          apply find_eq_none_of_not_mem
          intro hmem
          have := hall_l _ hmem
          omega
        | some p =>
          obtain ⟨m, r2⟩ := p
          have hm : o.id < m.id := hall_r _ (delMin_mem r m r2 hd)
          unfold gb_operation_find
          rw [if_pos (by omega : m.id > id)]
          apply find_eq_none_of_not_mem
          intro hmem
          have := hall_l _ hmem
          omega

/-- An inbound request on a connection whose protocol slot holds no handler
(GPIO, slot 2, is NULL in the dispatch table). -/
def c1_badop : Operation :=
  { id := 3, protocol := 2, request := gb_operation_gbuf_create 2 8 false,
    response := none, result := 0, hasCallback := false }

/-- The same inbound request on an I2C connection (slot 3), whose handler is
`gb_operation_recv_none`. -/
def c1_goodop : Operation := { c1_badop with protocol := 3 }

/-- C1: the claim says the completion notification fires exactly once per
operation, including when completion is triggered by a routing error.  On
the routing-error path the code fires it twice: `gb_operation_request_handle`
completes the operation after setting `GB_OP_PROTOCOL_BAD`, and
`gb_operation_recv_work` then unconditionally completes it again.  For an
inbound request with a registered handler the notification does fire
exactly once. -/
theorem recv_work_notification_count :
    (gb_operation_recv_work c1_badop).completions = 2 ∧
    (gb_operation_recv_work c1_goodop).completions = 1 := by decide

/-- C5: the claim says an interrupted synchronous wait reports the
interruption as the result, never silently replaced by a success result.
`gb_operation_wait` overwrites its return value with the result of the
transport cancel (`ret = greybus_kill_gbuf(...)`), so when the wait is
interrupted (-512, -ERESTARTSYS) and the cancel succeeds (0), both the
wait and the whole synchronous `gb_operation_request_send` return 0:
success, the interruption silently swallowed. -/
theorem gb_operation_wait_interrupted_result :
    gb_operation_wait (-512) 0 = 0 ∧
    gb_operation_request_send 0 false (-512) 0 = 0 ∧
    ¬ gb_operation_wait (-512) 0 < 0 := by decide

/-- A pending operation whose allocated response buffer holds 10 bytes. -/
def c2_gbuf : Gbuf :=
  { capacity := 10, data := List.replicate 10 7, actual_length := 0, status := 9 }

def c2_op : Operation :=
  { id := 1, protocol := 3, request := gb_operation_gbuf_create 5 2 true,
    response := some c2_gbuf, result := 0, hasCallback := true }

def c2_tree : GbTree := .node .nil c2_op .nil

/-- A 16-byte response frame for operation 1: longer than the 10-byte
response buffer, so the dispatcher drops it. -/
def c2_frame : List Nat := [16, 0, 1, 0, 133, 0, 0, 0, 1, 2, 3, 4, 5, 6, 7, 8]

/-- C2 counterexample: the claim says the matched pending operation remains
registered in the pending index when an oversize response is dropped.  In
the code `gb_operation_remove` runs before the buffer-size check, so after
the dropped frame the operation is gone from the index: `find` on its
identifier reports not-found. -/
theorem recv_oversize_response_state_counterexample :
    gb_operation_find c2_tree 1 = some c2_op ∧
    c2_frame.length > c2_gbuf.capacity ∧
    (gb_connection_operation_recv c2_tree 3 c2_frame ⟨true, true, true⟩).map
      (fun r => gb_operation_find r.pending 1) = some none := by decide

/-- C2 (amended): when the dispatcher drops a response frame longer than the
matched operation's response-buffer capacity, the operation has already
been removed from the pending index — after the drop, `find` on its
identifier returns not-found; the frame itself is dropped with no copy
and no deferred work queued. -/
theorem recv_oversize_response_removes_pending (pending : GbTree) (protocol : Nat)
    (data : List Nat) (oracle : AllocOracle) (op : Operation) (g : Gbuf)
    (hbst : isBST pending = true)
    (hlen : ¬ data.length > GB_OPERATION_MESSAGE_SIZE_MAX)
    (hbit : hdr_type data &&& GB_OPERATION_TYPE_RESPONSE ≠ 0)
    (hfind : gb_operation_find pending (le16_get data 2) = some op)
    (hresp : op.response = some g)
    (hover : data.length > g.capacity) :
    gb_connection_operation_recv pending protocol data oracle =
      some { pending := gb_operation_remove pending op, createdOp := none,
             respOp := some { op with response := some { g with status := GB_OP_SUCCESS } },
             copied := none, queued := false, errors := ["recv buffer too small"],
             warned := false, registered := false } ∧
    gb_operation_find (gb_operation_remove pending op) op.id = none := by
  constructor
  · simp [gb_connection_operation_recv, hlen, hbit, hfind, hresp, hover]
  · exact find_erase pending op.id hbst

/-- The pending-index state reached after the C2 oversize drop. -/
def c2_dropResult : RecvResult :=
  { pending := gb_operation_remove c2_tree c2_op, createdOp := none,
    respOp := some { c2_op with response := some { c2_gbuf with status := GB_OP_SUCCESS } },
    copied := none, queued := false, errors := ["recv buffer too small"],
    warned := false, registered := false }

/-- Witness for C2 (amended) at the concrete dropped frame. -/
theorem recv_oversize_response_removes_pending_witness :
    isBST c2_tree = true ∧
    (¬ c2_frame.length > GB_OPERATION_MESSAGE_SIZE_MAX) ∧
    hdr_type c2_frame &&& GB_OPERATION_TYPE_RESPONSE ≠ 0 ∧
    gb_operation_find c2_tree (le16_get c2_frame 2) = some c2_op ∧
    c2_op.response = some c2_gbuf ∧
    c2_frame.length > c2_gbuf.capacity ∧
    (gb_connection_operation_recv c2_tree 3 c2_frame ⟨true, true, true⟩ =
        some c2_dropResult ∧
      gb_operation_find (gb_operation_remove c2_tree c2_op) c2_op.id = none) :=
  ⟨by decide, by decide, by decide, by decide, by decide, by decide,
   recv_oversize_response_removes_pending c2_tree 3 c2_frame ⟨true, true, true⟩
     c2_op c2_gbuf (by decide) (by decide) (by decide) (by decide) (by decide)
     (by decide)⟩

/-- A pending operation with a 10-byte response buffer, for the size-guard
claim. -/
def c3_gbuf : Gbuf :=
  { capacity := 10, data := List.replicate 10 7, actual_length := 0, status := 9 }

def c3_op : Operation :=
  { id := 2, protocol := 3, request := gb_operation_gbuf_create 5 2 true,
    response := some c3_gbuf, result := 0, hasCallback := true }

def c3_tree : GbTree := .node .nil c3_op .nil

/-- A 9-byte response frame for operation 2, fitting its 10-byte buffer. -/
def c3_frame : List Nat := [9, 0, 2, 0, 133, 0, 0, 0, 42]

/-- C3: for a response frame correlated to a pending operation, a frame
longer than the allocated response buffer is dropped with no copy — the
buffer's bytes are left untouched and no work is queued — and a copy into
the response buffer happens only when the delivered length is within the
buffer's capacity. -/
theorem recv_response_buffer_size_guard (pending : GbTree) (protocol : Nat)
    (data : List Nat) (oracle : AllocOracle) (op : Operation) (g : Gbuf)
    (hlen : ¬ data.length > GB_OPERATION_MESSAGE_SIZE_MAX)
    (hbit : hdr_type data &&& GB_OPERATION_TYPE_RESPONSE ≠ 0)
    (hfind : gb_operation_find pending (le16_get data 2) = some op)
    (hresp : op.response = some g) :
    (data.length > g.capacity →
        gb_connection_operation_recv pending protocol data oracle =
          some { pending := gb_operation_remove pending op, createdOp := none,
                 respOp := some { op with
                                  response := some { g with status := GB_OP_SUCCESS } },
                 copied := none, queued := false, errors := ["recv buffer too small"],
                 warned := false, registered := false }) ∧
    (∀ r, gb_connection_operation_recv pending protocol data oracle = some r →
        r.copied.isSome = true → data.length ≤ g.capacity) := by
  have hdrop : data.length > g.capacity →
      gb_connection_operation_recv pending protocol data oracle =
        some { pending := gb_operation_remove pending op, createdOp := none,
               respOp := some { op with
                                response := some { g with status := GB_OP_SUCCESS } },
               copied := none, queued := false, errors := ["recv buffer too small"],
               warned := false, registered := false } := by
    intro hover
    simp [gb_connection_operation_recv, hlen, hbit, hfind, hresp, hover]
  refine ⟨hdrop, ?_⟩
  intro r hr hc
  by_cases hover : data.length > g.capacity
  · rw [hdrop hover] at hr
    obtain rfl := Option.some_inj.mp hr
    simp at hc
  · omega

/-- Witness for C3 at a concrete fitting response frame: the copy is
performed and the delivered length is within the buffer's capacity. -/
theorem recv_response_buffer_size_guard_witness :
    (¬ c3_frame.length > GB_OPERATION_MESSAGE_SIZE_MAX) ∧
    hdr_type c3_frame &&& GB_OPERATION_TYPE_RESPONSE ≠ 0 ∧
    gb_operation_find c3_tree (le16_get c3_frame 2) = some c3_op ∧
    c3_op.response = some c3_gbuf ∧
    ((c3_frame.length > c3_gbuf.capacity →
        gb_connection_operation_recv c3_tree 3 c3_frame ⟨true, true, true⟩ =
          some { pending := gb_operation_remove c3_tree c3_op, createdOp := none,
                 respOp := some { c3_op with
                                  response := some { c3_gbuf with status := GB_OP_SUCCESS } },
                 copied := none, queued := false, errors := ["recv buffer too small"],
                 warned := false, registered := false }) ∧
      (∀ r, gb_connection_operation_recv c3_tree 3 c3_frame ⟨true, true, true⟩ = some r →
          r.copied.isSome = true → c3_frame.length ≤ c3_gbuf.capacity)) :=
  ⟨by decide, by decide, by decide, by decide,
   recv_response_buffer_size_guard c3_tree 3 c3_frame ⟨true, true, true⟩ c3_op c3_gbuf
     (by decide) (by decide) (by decide) (by decide)⟩

/-- A pending operation with a roomy 100-byte response buffer. -/
def c4_gbuf : Gbuf :=
  { capacity := 100, data := List.replicate 100 0, actual_length := 0, status := 9 }

def c4_op : Operation :=
  { id := 1, protocol := 3, request := gb_operation_gbuf_create 5 2 true,
    response := some c4_gbuf, result := 0, hasCallback := true }

def c4_tree : GbTree := .node .nil c4_op .nil

/-- An 8-byte response frame whose header declares a size of 5000 bytes. -/
def c4_frame : List Nat := [136, 19, 1, 0, 133, 0, 0, 0]

/-- C4 counterexample: the claim says every frame whose declared header
`size` field exceeds 4096 is dropped, creating no operation and mutating
no pending operation.  The code's oversize check tests the delivered byte
count, not the declared field: this 8-byte frame declaring 5000 bytes
passes the check, the matched pending operation is removed from the index
and overwritten (5000 bytes are copied into its response buffer), and
deferred work is queued. -/
theorem recv_declared_oversize_counterexample :
    le16_get c4_frame 0 = 5000 ∧
    GB_OPERATION_MESSAGE_SIZE_MAX < 5000 ∧
    gb_operation_find c4_tree 1 = some c4_op ∧
    (gb_connection_operation_recv c4_tree 3 c4_frame ⟨true, true, true⟩).map
      (fun r => (gb_operation_find r.pending 1, r.copied, r.queued)) =
      some (none, some 5000, true) := by decide

/-- C4 (amended): the dispatcher's oversize rejection is keyed to the
delivered frame length: every inbound byte block longer than 4096 bytes
is dropped with the "message too big" diagnostic, creating no operation,
queueing no work and leaving the pending index untouched.  (For frames
delivered whole — declared size equal to delivered size, the invariant the
request path's WARN_ON checks — this subsumes the declared-size claim.) -/
theorem recv_delivered_oversize_drop (pending : GbTree) (protocol : Nat)
    (data : List Nat) (oracle : AllocOracle)
    (h : data.length > GB_OPERATION_MESSAGE_SIZE_MAX) :
    gb_connection_operation_recv pending protocol data oracle =
      some { pending := pending, createdOp := none, respOp := none, copied := none,
             queued := false, errors := ["message too big"], warned := false,
             registered := false } := by
  simp [gb_connection_operation_recv, h]

/-- Witness for C4 (amended) at a concrete 4097-byte frame. -/
theorem recv_delivered_oversize_drop_witness :
    (List.replicate 4097 0).length > GB_OPERATION_MESSAGE_SIZE_MAX ∧
    gb_connection_operation_recv .nil 0 (List.replicate 4097 0) ⟨true, true, true⟩ =
      some { pending := .nil, createdOp := none, respOp := none, copied := none,
             queued := false, errors := ["message too big"], warned := false,
             registered := false } :=
  ⟨by norm_num [GB_OPERATION_MESSAGE_SIZE_MAX, List.length_replicate],
   recv_delivered_oversize_drop .nil 0 (List.replicate 4097 0) ⟨true, true, true⟩
     (by norm_num [GB_OPERATION_MESSAGE_SIZE_MAX, List.length_replicate])⟩

/-- The length of a `memcpy` result: `n` copied bytes followed by whatever
of the destination lay beyond them. -/
theorem copyBytes_length (dst src : List Nat) (n : Nat) :
    (copyBytes dst src n).length = n + (dst.length - n) := by
  simp [copyBytes]

/-- Shape of a successfully created operation: the request buffer is sized
for the requested payload plus the header, its backing bytes have exactly
that extent, and the response buffer exists exactly when a non-zero
response size was requested. -/
theorem gb_operation_create_some_shape (p t reqS respS : Nat) (oracle : AllocOracle)
    (op : Operation) (h : (gb_operation_create p t reqS respS oracle).op? = some op) :
    op.request.capacity = reqS + gb_operation_msg_hdr_size ∧
    op.request.data.length = gb_operation_msg_hdr_size + reqS ∧
    op.response = (if respS ≠ 0 then
        some (gb_operation_gbuf_create (t ||| GB_OPERATION_TYPE_RESPONSE) respS false)
      else none) := by
  obtain ⟨o1, o2, o3⟩ := oracle
  cases o1 <;> cases o2 <;> cases o3 <;> by_cases hr : respS = 0 <;>
      simp [gb_operation_create, hr] at h <;>
      subst h <;>
      simp [gb_operation_gbuf_create, gb_operation_msg_hdr_size, hr] <;> omega

/-- C6: `gb_operation_create` allocates the request buffer whenever the
operation object came into being, allocates a response buffer if and only
if the requested response size is non-zero, and on any allocation failure
returns the null indication with every successfully allocated buffer
freed again and nothing registered on the connection's operation list. -/
theorem gb_operation_create_alloc_contract (p t reqS respS : Nat)
    (oracle : AllocOracle) :
    ((gb_operation_create p t reqS respS oracle).op? = none →
        (gb_operation_create p t reqS respS oracle).freed =
          (gb_operation_create p t reqS respS oracle).allocated ∧
        (gb_operation_create p t reqS respS oracle).registered = false) ∧
    (oracle.opOk = true →
        (gb_operation_create p t reqS respS oracle).attempted.head? = some .request) ∧
    (∀ op, (gb_operation_create p t reqS respS oracle).op? = some op →
        (op.response.isSome ↔ respS ≠ 0) ∧
        (gb_operation_create p t reqS respS oracle).allocated =
          (if respS ≠ 0 then [.request, .response] else [.request]) ∧
        (gb_operation_create p t reqS respS oracle).freed = [] ∧
        (gb_operation_create p t reqS respS oracle).registered = true) := by
  obtain ⟨o1, o2, o3⟩ := oracle
  cases o1 <;> cases o2 <;> cases o3 <;> by_cases h : respS = 0 <;>
    simp [gb_operation_create, h]

/-- Witness for C6 at a concrete failing response-buffer allocation. -/
theorem gb_operation_create_alloc_contract_witness :
    (gb_operation_create 0 5 4 8 ⟨true, true, false⟩).op? = none ∧
    ((gb_operation_create 0 5 4 8 ⟨true, true, false⟩).freed =
        (gb_operation_create 0 5 4 8 ⟨true, true, false⟩).allocated ∧
      (gb_operation_create 0 5 4 8 ⟨true, true, false⟩).registered = false) :=
  ⟨by decide, (gb_operation_create_alloc_contract 0 5 4 8 ⟨true, true, false⟩).1
    (by decide)⟩

/-- C7: on a well-ordered registry with pairwise-distinct identifiers,
`gb_operation_insert` assigns the operation its identifier and links it so
that `gb_operation_find` on that identifier returns exactly the inserted
operation; after `gb_operation_remove` of any operation, `find` on its
identifier reports not-found; and `find` on an identifier held by no
registered operation reports not-found. -/
theorem gb_operation_registry_find_insert_remove (counter : Nat) (t t2 : GbTree)
    (op op2 : Operation) (j : Nat)
    (hbst : isBST t = true)
    (hins : gb_operation_insert counter t op = some (t2, op2))
    (hj : j ∉ keys t) :
    gb_operation_find t2 op2.id = some op2 ∧
    (∀ victim : Operation,
        gb_operation_find (gb_operation_remove t victim) victim.id = none) ∧
    gb_operation_find t j = none := by
  refine ⟨?_, ?_, find_eq_none_of_not_mem t j hj⟩
  · simp only [gb_operation_insert] at hins
    cases hi : insertTree t
        { op with
          id := gb_connection_operation_id counter
          request := { op.request with
                       data := setLe16 op.request.data 2
                                 (gb_connection_operation_id counter) } } with
    | none => rw [hi] at hins; simp at hins
    | some t3 =>
      rw [hi] at hins
      simp only [Option.map_some', Option.some_inj, Prod.mk.injEq] at hins
      obtain ⟨h1, h2⟩ := hins
      subst h1
      subst h2
      exact insertTree_find t _ _ hi
  · intro victim
    exact find_erase t victim.id hbst

/-- An operation awaiting insertion (identifier still unassigned). -/
def c7_op : Operation :=
  { id := 0, protocol := 0, request := gb_operation_gbuf_create 1 0 true,
    response := none, result := 0, hasCallback := false }

/-- A resident pending operation with identifier 5. -/
def c7_resident : Operation := { c7_op with id := 5 }

def c7_tree : GbTree := .node .nil c7_resident .nil

/-- The operation as inserted with counter value 7: identifier 7, written
little-endian into the request header's id field. -/
def c7_inserted : Operation :=
  { c7_op with
    id := 7
    request := { c7_op.request with data := setLe16 c7_op.request.data 2 7 } }

def c7_tree2 : GbTree := .node .nil c7_resident (.node .nil c7_inserted .nil)

/-- Witness for C7 at a concrete registry. -/
theorem gb_operation_registry_find_insert_remove_witness :
    isBST c7_tree = true ∧
    gb_operation_insert 7 c7_tree c7_op = some (c7_tree2, c7_inserted) ∧
    (9 ∉ keys c7_tree) ∧
    (gb_operation_find c7_tree2 c7_inserted.id = some c7_inserted ∧
      (∀ victim : Operation,
          gb_operation_find (gb_operation_remove c7_tree victim) victim.id = none) ∧
      gb_operation_find c7_tree 9 = none) :=
  ⟨by decide, by decide, by decide,
   gb_operation_registry_find_insert_remove 7 c7_tree c7_tree2 c7_op c7_inserted 9
     (by decide) (by decide) (by decide)⟩

/-- C8 counterexample: the claim says the header's le16 `size` field equals
header size plus payload size for every payload size.  `cpu_to_le16`
truncates the sum to 16 bits: for a payload of 65535 bytes the stored
field reads back 7, not 65543.  (This payload is reachable: the receive
path passes the declared u16 size of an inbound request straight to
`gb_operation_create` as the payload size.) -/
theorem gbuf_create_size_field_truncation_counterexample :
    le16_get (gb_operation_gbuf_create 3 65535 true).data 0 = 7 ∧
    gb_operation_msg_hdr_size + 65535 = 65543 ∧ (7 : Nat) ≠ 65543 := by decide

/-- C8 (amended): for every payload size whose framed total fits a 16-bit
field (in particular everything up to the 4096-byte frame maximum) and
every type byte, the outbound buffer's header carries a le16 `size` field
equal to header size plus payload size, a zero `id` field and the given
`type` byte (the response bit is set only by the caller for responses);
larger totals are truncated modulo 2^16 by `cpu_to_le16`. -/
theorem gb_operation_gbuf_create_header_fields (otype size : Nat) (dataOut : Bool)
    (hsz : gb_operation_msg_hdr_size + size < 65536) (hty : otype < 256) :
    le16_get (gb_operation_gbuf_create otype size dataOut).data 0 =
      gb_operation_msg_hdr_size + size ∧
    le16_get (gb_operation_gbuf_create otype size dataOut).data 2 = 0 ∧
    (gb_operation_gbuf_create otype size dataOut).data.getD 4 0 = otype := by
  simp only [gb_operation_msg_hdr_size] at hsz ⊢
  refine ⟨?_, ?_, ?_⟩ <;>
    simp [gb_operation_gbuf_create, le16_get, gb_operation_msg_hdr_size] <;> omega

/-- Witness for C8 (amended) at a concrete 16-byte payload of type 3. -/
theorem gb_operation_gbuf_create_header_fields_witness :
    gb_operation_msg_hdr_size + 16 < 65536 ∧ (3 : Nat) < 256 ∧
    (le16_get (gb_operation_gbuf_create 3 16 true).data 0 =
        gb_operation_msg_hdr_size + 16 ∧
      le16_get (gb_operation_gbuf_create 3 16 true).data 2 = 0 ∧
      (gb_operation_gbuf_create 3 16 true).data.getD 4 0 = 3) :=
  ⟨by decide, by decide,
   gb_operation_gbuf_create_header_fields 3 16 true (by decide) (by decide)⟩

/-- A 16-byte inbound request frame declaring 16 bytes. -/
def c9_frame : List Nat := [16, 0, 0, 0, 5, 0, 0, 0, 1, 2, 3, 4, 5, 6, 7, 8]

/-- C9 counterexample: the claim says the fabricated operation's request
buffer capacity equals the frame's declared `size` field.  The receive
path passes the declared total (header plus payload) to
`gb_operation_create` as the *payload* size, and `gb_operation_gbuf_create`
adds the header size again: for a frame declaring 16 bytes the request
buffer holds 24. -/
theorem recv_request_buffer_capacity_counterexample :
    le16_get c9_frame 0 = 16 ∧
    (gb_connection_operation_recv .nil 3 c9_frame ⟨true, true, true⟩).map
      (fun r => r.createdOp.map (fun op => op.request.capacity)) = some (some 24) ∧
    (24 : Nat) ≠ 16 := by decide

/-- C9 (amended): for every accepted inbound request frame from which an
operation is fabricated, the operation's request buffer capacity equals
the frame's declared `size` field plus the header size (the declared
total is passed as the payload size, so the buffer is 8 bytes larger
than the frame), no response buffer is allocated for it, the operation is
registered on the connection's operation list, and the pending index is
untouched. -/
theorem recv_request_operation_shape (pending : GbTree) (protocol : Nat)
    (data : List Nat) (oracle : AllocOracle) (r : RecvResult) (op : Operation)
    (hlen : ¬ data.length > GB_OPERATION_MESSAGE_SIZE_MAX)
    (hbit : hdr_type data &&& GB_OPERATION_TYPE_RESPONSE = 0)
    (hr : gb_connection_operation_recv pending protocol data oracle = some r)
    (hop : r.createdOp = some op) :
    op.request.capacity = le16_get data 0 + gb_operation_msg_hdr_size ∧
    op.response = none ∧ r.registered = true ∧ r.pending = pending := by
  cases hc : (gb_operation_create protocol (hdr_type data) (le16_get data 0) 0
      oracle).op? with
  | none =>
    simp [gb_connection_operation_recv, hlen, hbit, hc] at hr
    subst hr
    simp at hop
  | some op0 =>
    obtain ⟨hcap, hdlen, hrespo⟩ := gb_operation_create_some_shape _ _ _ _ _ _ hc
    simp [gb_connection_operation_recv, hlen, hbit, hc] at hr
    subst hr
    simp only [Option.some_inj] at hop
    subst hop
    simp [hcap, hrespo]

/-- Witness for C9 (amended) at a concrete 12-byte request frame. -/
def c9w_frame : List Nat := [12, 0, 0, 0, 5, 0, 0, 0, 9, 9, 9, 9]

/-- A null result record, used only as the default of an `Option.getD`. -/
def emptyRecvResult : RecvResult :=
  { pending := .nil, createdOp := none, respOp := none, copied := none,
    queued := false, errors := [], warned := false, registered := false }

/-- A null operation, used only as the default of an `Option.getD`. -/
def dummyOp : Operation :=
  { id := 0, protocol := 0,
    request := { capacity := 0, data := [], actual_length := 0, status := 0 },
    response := none, result := 0, hasCallback := false }

def c9w_r : RecvResult :=
  (gb_connection_operation_recv .nil 3 c9w_frame ⟨true, true, true⟩).getD
    emptyRecvResult

def c9w_op : Operation := c9w_r.createdOp.getD dummyOp

theorem recv_request_operation_shape_witness :
    (¬ c9w_frame.length > GB_OPERATION_MESSAGE_SIZE_MAX) ∧
    hdr_type c9w_frame &&& GB_OPERATION_TYPE_RESPONSE = 0 ∧
    gb_connection_operation_recv .nil 3 c9w_frame ⟨true, true, true⟩ = some c9w_r ∧
    c9w_r.createdOp = some c9w_op ∧
    (c9w_op.request.capacity = le16_get c9w_frame 0 + gb_operation_msg_hdr_size ∧
      c9w_op.response = none ∧ c9w_r.registered = true ∧ c9w_r.pending = .nil) :=
  ⟨by decide, by decide, by decide, by decide,
   recv_request_operation_shape .nil 3 c9w_frame ⟨true, true, true⟩ c9w_r c9w_op
     (by decide) (by decide) (by decide) (by decide)⟩

/-- C10: for every inbound request frame accepted by the dispatcher, the
copy into the fabricated operation's request buffer transfers exactly the
declared `size` field's worth of bytes into a buffer allocated with that
many bytes plus the header size, so the copied extent never exceeds the
destination capacity and the buffer's backing bytes keep exactly its
allocated extent. -/
theorem recv_request_copy_bounded (pending : GbTree) (protocol : Nat)
    (data : List Nat) (oracle : AllocOracle) (r : RecvResult) (op : Operation)
    (hlen : ¬ data.length > GB_OPERATION_MESSAGE_SIZE_MAX)
    (hbit : hdr_type data &&& GB_OPERATION_TYPE_RESPONSE = 0)
    (hr : gb_connection_operation_recv pending protocol data oracle = some r)
    (hop : r.createdOp = some op) :
    r.copied = some (le16_get data 0) ∧
    op.request.capacity = le16_get data 0 + gb_operation_msg_hdr_size ∧
    le16_get data 0 ≤ op.request.capacity ∧
    op.request.data.length = op.request.capacity := by
  cases hc : (gb_operation_create protocol (hdr_type data) (le16_get data 0) 0
      oracle).op? with
  | none =>
    simp [gb_connection_operation_recv, hlen, hbit, hc] at hr
    subst hr
    simp at hop
  | some op0 =>
    obtain ⟨hcap, hdlen, hrespo⟩ := gb_operation_create_some_shape _ _ _ _ _ _ hc
    simp [gb_connection_operation_recv, hlen, hbit, hc] at hr
    subst hr
    simp only [Option.some_inj] at hop
    subst hop
    refine ⟨rfl, hcap, ?_, ?_⟩
    · simp [hcap]
    · simp [copyBytes_length, hcap, hdlen]

/-- Witness for C10 at a concrete 10-byte request frame. -/
def c10w_frame : List Nat := [10, 0, 0, 0, 6, 0, 0, 0, 1, 2]

def c10w_r : RecvResult :=
  (gb_connection_operation_recv .nil 4 c10w_frame ⟨true, true, true⟩).getD
    emptyRecvResult

def c10w_op : Operation := c10w_r.createdOp.getD dummyOp

theorem recv_request_copy_bounded_witness :
    (¬ c10w_frame.length > GB_OPERATION_MESSAGE_SIZE_MAX) ∧
    hdr_type c10w_frame &&& GB_OPERATION_TYPE_RESPONSE = 0 ∧
    gb_connection_operation_recv .nil 4 c10w_frame ⟨true, true, true⟩ = some c10w_r ∧
    c10w_r.createdOp = some c10w_op ∧
    (c10w_r.copied = some (le16_get c10w_frame 0) ∧
      c10w_op.request.capacity = le16_get c10w_frame 0 + gb_operation_msg_hdr_size ∧
      le16_get c10w_frame 0 ≤ c10w_op.request.capacity ∧
      c10w_op.request.data.length = c10w_op.request.capacity) :=
  ⟨by decide, by decide, by decide, by decide,
   recv_request_copy_bounded .nil 4 c10w_frame ⟨true, true, true⟩ c10w_r c10w_op
     (by decide) (by decide) (by decide) (by decide)⟩
